import Mathlib

/-!
Shallow embedding of the modification engine of the evocv2 LLM microservice
(`app/agents/modifier.py`), of the notebook data model, and of the request
parser (`app/core/request_parser.py`).

External collaborators (the Groq LLM "generation oracle" and the Mem0 memory
service) are modelled as explicit inputs/outputs: each oracle invocation is an
`Except String` value supplied to the engine (an `Except.error` models a raised
exception caught at the call site), and the memory writes that matter to the
specification (dependency-pattern facts) are returned as part of the outcome.
Python exceptions that are NOT caught by the source are modelled by `Option`:
a `none` result of `modify` models an uncaught exception escaping to the
caller.
-/

namespace Evo

/-- Modelled from the spec: the package-manifest default of
`app.models.NotebookStructure` (the file `app/models.py` is not under `src/`;
the spec only says the artifact carries a package manifest that is replaced
wholesale when the oracle returns one, so the default is an abstract constant:
no explicit manifest). -/
def defaultRequirements : Option String := none

/-- Modelled from the spec: `app.models.NotebookCell` (`app/models.py` is not
under `src/`). Field set taken from the constructor calls in
`app/agents/modifier.py` and `app/agents/generator.py`: cell type, optional
cell name (the segment's role name), source text, optional execution count and
optional free-form metadata. -/
structure NotebookCell where
  cell_type : String
  cell_name : Option String
  source : String
  execution_count : Option Nat := none
  metadata : Option (List (String × String)) := none
  deriving DecidableEq, Repr

/-- Modelled from the spec: `app.models.NotebookStructure` (`app/models.py` is
not under `src/`): an ordered sequence of cells plus a package manifest, the
manifest defaulting when a structure is built from a cell list alone (as
`_apply_cell_modifications` does). -/
structure NotebookStructure where
  cells : List NotebookCell
  requirements : Option String := defaultRequirements
  deriving DecidableEq, Repr

/-- Modelled from the spec: `app.models.ModifyRequest` (`app/models.py` is not
under `src/`): user identity, artifact identity, the artifact itself, the
instruction and an optional target-segment name (spec section 3,
"Modification Request"). -/
structure ModifyRequest where
  user_id : String
  notebook_id : String
  notebook : NotebookStructure
  instruction : String
  cell_name : Option String := none
  deriving DecidableEq, Repr

/-- `AffectedCellsAnalysis` from `app/agents/modifier.py`: the structured
output shape of the affected-cells oracle call. Indices are Python ints,
hence `Int`. -/
structure AffectedCellsAnalysis where
  target_cell_index : Int
  affected_cells : List Int
  reasoning : String
  deriving DecidableEq, Repr

/-- `CellModification` from `app/agents/modifier.py`: one per-cell edit in the
edit-oracle's structured output. -/
structure CellModification where
  cell_index : Int
  new_code : String
  change_description : String
  deriving DecidableEq, Repr

/-- `ModificationResult` from `app/agents/modifier.py`: the edit-oracle's
structured output (edits, human-readable summaries, optional replacement
requirements manifest, defaulting to `None`). -/
structure ModificationResult where
  modifications : List CellModification
  changes_summary : List String
  requirements : Option String := none
  deriving DecidableEq, Repr

/-- One entry of the minimal context sent to the edit oracle
(`cells_for_llm` / `all_cells` dictionaries in `app/agents/modifier.py`). -/
structure CellCtx where
  index : Int
  name : String
  code : String
  deriving DecidableEq, Repr

/-- A dependency-pattern fact as written by
`EnhancedMemory.store_dependency_pattern` (`app/memory.py`). -/
structure DependencyPattern where
  source_cell : String
  affected_cells : List String
  reason : String
  deriving DecidableEq, Repr

/-- Result of one oracle (LLM) invocation as seen at its call site:
`Except.error` models an exception raised by the call and caught by the
`try/except` wrapping it. -/
abbrev OracleResult (α : Type) := Except String α

/-- The value returned by `modify`, together with the observable effects the
specification talks about: the cell context handed to the edit-oracle call and
the dependency-pattern facts written to memory. -/
structure ModifyOutcome where
  notebook : NotebookStructure
  changes_summary : List String
  modified_indices : List Int
  oracle_context : List CellCtx
  dependency_patterns : List DependencyPattern
  deriving DecidableEq, Repr

/-- Python list subscription `l[i]` for an `int` index: negative indices wrap
once from the end; `none` models an `IndexError`. -/
def pyGet {α : Type} (l : List α) (i : Int) : Option α :=
  let j : Int := if i < 0 then i + l.length else i
  if 0 ≤ j then l[j.toNat]? else none

/-- `CELL_MAP` from `NotebookModifier` in `app/agents/modifier.py`: the
name-or-alias to index dictionary. -/
def CELL_MAP (name : String) : Option Nat :=
  match name with
  | "imports" => some 0
  | "import" => some 0
  | "config" => some 1
  | "configuration" => some 1
  | "creator" => some 2
  | "evaluate" => some 3
  | "evaluation" => some 3
  | "fitness" => some 3
  | "mate" => some 4
  | "crossover" => some 4
  | "mutate" => some 5
  | "mutation" => some 5
  | "select" => some 6
  | "selection" => some 6
  | "additional" => some 7
  | "operators" => some 7
  | "init" => some 8
  | "initialization" => some 8
  | "register" => some 9
  | "toolbox" => some 9
  | "evolution" => some 10
  | "loop" => some 10
  | "algorithm" => some 10
  | "results" => some 11
  | "plots" => some 11
  | "plotting" => some 11
  | _ => none

/-- Python `str.lower` (ASCII case mapping, the fragment the cell names
exercise), computed character-wise. -/
def pyLower (s : String) : String := ⟨s.data.map Char.toLower⟩

/-- Strip leading and trailing whitespace from a character list (Python
`str.strip`). -/
def stripChars (cs : List Char) : List Char :=
  ((cs.dropWhile Char.isWhitespace).reverse.dropWhile Char.isWhitespace).reverse

/-- Python `str.strip`. -/
def pyStrip (s : String) : String := ⟨stripChars s.data⟩

/-- `NotebookModifier._get_cell_index`: normalize (lower-case, strip) and look
the name up in `CELL_MAP`. -/
def get_cell_index (cell_name : String) : Option Nat :=
  CELL_MAP (pyStrip (pyLower cell_name))

/-- `CellNameMapper.CELL_NAMES` from `app/utils/cell_names.py`: canonical role
name of each of the 12 indices. -/
def CELL_NAMES (i : Nat) : Option String :=
  match i with
  | 0 => some "imports"
  | 1 => some "config"
  | 2 => some "creator"
  | 3 => some "evaluate"
  | 4 => some "crossover"
  | 5 => some "mutation"
  | 6 => some "selection"
  | 7 => some "additional_operators"
  | 8 => some "initialization"
  | 9 => some "toolbox_registration"
  | 10 => some "evolution_loop"
  | 11 => some "results_and_plots"
  | _ => none

/-- `CellNameMapper.get_cell_name`: canonical role name with the positional
placeholder fallback. -/
def get_cell_name (i : Nat) : String :=
  (CELL_NAMES i).getD ("cell_" ++ toString i)

/-- The Python expression `cell.cell_name or f"cell_{i}"` used when labelling
a cell for the oracle and for the dependency-pattern fact: the stored name
unless it is falsy (`None` or empty), else a positional placeholder. -/
def cellDisplayName (c : NotebookCell) (i : Int) : String :=
  match c.cell_name with
  | some s => if s = "" then "cell_" ++ toString i else s
  | none => "cell_" ++ toString i

/-- Option-valued traversal of a list, failing as soon as one element fails:
models a Python list comprehension whose body may raise. -/
def traverseOption {α β : Type} (f : α → Option β) : List α → Option (List β)
  | [] => some []
  | a :: t =>
    match f a with
    | none => none
    | some b => (traverseOption f t).map (fun bs => b :: bs)

/-- Insert an integer into a sorted list, keeping it sorted. -/
def insertSorted (a : Int) : List Int → List Int
  | [] => [a]
  | b :: t => if a ≤ b then a :: b :: t else b :: insertSorted a t

/-- The Python expression `sorted(set(xs))`: ascending order, duplicates
removed. -/
def pySortedSet (xs : List Int) : List Int :=
  xs.dedup.foldr insertSorted []

/-- One iteration of the loop in
`NotebookModifier._apply_cell_modifications`: an in-range edit replaces the
cell (keeping its name, resetting type, execution count and metadata); an
out-of-range index fails the `0 <= mod.cell_index < 12` guard and is skipped.
`none` models an `IndexError` (list shorter than a guarded index). -/
def applyOneModification (fmt : String → String) (cells : List NotebookCell)
    (m : CellModification) : Option (List NotebookCell) :=
  if 0 ≤ m.cell_index ∧ m.cell_index < 12 then
    match pyGet cells m.cell_index with
    | none => none
    | some old =>
      some (cells.set m.cell_index.toNat
        { cell_type := "code", cell_name := old.cell_name,
          source := fmt m.new_code, execution_count := none })
  else
    some cells

/-- The `for mod in modifications` loop of `_apply_cell_modifications`,
threading the mutated cell list. -/
def applyLoop (fmt : String → String) :
    List NotebookCell → List CellModification → Option (List NotebookCell)
  | cells, [] => some cells
  | cells, m :: ms =>
    match applyOneModification fmt cells m with
    | none => none
    | some cells2 => applyLoop fmt cells2 ms

/-- `NotebookModifier._apply_cell_modifications`: deep-copy the cells, apply
each in-range edit, and build a fresh `NotebookStructure` from the cell list
alone (the requirements manifest therefore takes its default). `format_code`
(from `app/utils/helpers.py`, not under `src/`) is the parameter `fmt`. -/
def apply_cell_modifications (fmt : String → String) (notebook : NotebookStructure)
    (mods : List CellModification) : Option NotebookStructure :=
  (applyLoop fmt notebook.cells mods).map (fun cs => { cells := cs })

/-- The `if modification_result.requirements:` update in
`_targeted_modification` and `_notebook_level_modification`: the manifest is
replaced only when the oracle's value is truthy (present and non-empty). -/
def updateRequirements (nb : NotebookStructure) (r : Option String) : NotebookStructure :=
  match r with
  | some s => if s = "" then nb else { nb with requirements := some s }
  | none => nb

/-- The value of the affected-cells analysis after the `try/except` in
`_analyze_affected_cells`: the oracle's output, or on failure the fallback
analysis containing only the target cell. -/
def effectiveAnalysis (target_index : Nat) (o : OracleResult AffectedCellsAnalysis) :
    AffectedCellsAnalysis :=
  match o with
  | Except.ok a => a
  | Except.error _ =>
    { target_cell_index := (target_index : Int), affected_cells := [],
      reasoning := "Fallback: only modifying target cell" }

/-- The value of the edit result after the `try/except` in
`_modify_cells_with_llm`: the oracle's output, or on failure an empty edit
list with a single error summary. -/
def effectiveEditResult (o : OracleResult ModificationResult) : ModificationResult :=
  match o with
  | Except.ok r => r
  | Except.error e =>
    { modifications := [], changes_summary := ["Error: " ++ e], requirements := none }

/-- The `cells_for_llm` list comprehension of `_targeted_modification`:
fetch each edit-set cell (Python subscription, so an out-of-range index
raises, modelled by `none`) and package index, display name and code. -/
def cells_for_llm (nb : NotebookStructure) (indices : List Int) : Option (List CellCtx) :=
  traverseOption
    (fun i => (pyGet nb.cells i).map
      (fun c => { index := i, name := cellDisplayName c i, code := c.source }))
    indices

/-- The `affected` list comprehension of
`_store_targeted_modification_in_mem0`: display names of the edit-set cells
other than the target index (`none` models an `IndexError` inside the
comprehension, which the surrounding `try/except` turns into a skipped
write). -/
def affected_cell_names (nb : NotebookStructure) (all_indices : List Int)
    (target_index : Nat) : Option (List String) :=
  traverseOption
    (fun i => (pyGet nb.cells i).map (fun c => cellDisplayName c i))
    (all_indices.filter (fun i => i ≠ (target_index : Int)))

/-- The dependency-pattern facts written by
`_store_targeted_modification_in_mem0`: exactly one fact (source = the
request's cell name, affected = display names of the other edit-set cells,
reason = the instruction) when the edit set has more than one member; none
otherwise. An `IndexError` in the `affected` comprehension is caught by the
surrounding `try/except`, so nothing is written in that case (every other
memory call catches its own exceptions inside `app/memory.py`). -/
def dependency_patterns_written (request : ModifyRequest) (target_index : Nat)
    (all_indices : List Int) : List DependencyPattern :=
  if 1 < all_indices.length then
    match affected_cell_names request.notebook all_indices target_index with
    | none => []
    | some affected =>
      [{ source_cell := request.cell_name.getD "",
         affected_cells := affected,
         reason := "Modification: " ++ request.instruction }]
  else []

/-- `NotebookModifier._notebook_level_modification`: full-notebook context,
one edit-oracle call, edits applied, manifest optionally replaced, changed
indices taken verbatim from the oracle's edit list, no dependency-pattern
write. -/
def notebook_level_modification (fmt : String → String)
    (editOracle : OracleResult ModificationResult) (request : ModifyRequest) :
    Option ModifyOutcome :=
  let all_cells := request.notebook.cells.enum.map
    (fun p => { index := (p.1 : Int), name := cellDisplayName p.2 (p.1 : Int),
                code := p.2.source : CellCtx })
  let result := effectiveEditResult editOracle
  match apply_cell_modifications fmt request.notebook result.modifications with
  | none => none
  | some nb =>
    some { notebook := updateRequirements nb result.requirements,
           changes_summary := result.changes_summary,
           modified_indices := result.modifications.map (fun m => m.cell_index),
           oracle_context := all_cells,
           dependency_patterns := [] }

/-- `NotebookModifier._targeted_modification`: resolve the target name (an
unresolved name falls back to the notebook-level path), read the target cell
(`_analyze_affected_cells` builds its prompt from it before any `try`), take
the affected-cells analysis (or its fallback), form the sorted deduplicated
edit set, fetch the edit-set cells for the oracle (Python subscription: an
un-indexable edit-set member raises, modelled by `none`), take the edit
result (or its fallback), apply the edits, optionally replace the manifest,
and write the memory facts. -/
def targeted_modification (fmt : String → String)
    (analysisOracle : OracleResult AffectedCellsAnalysis)
    (editOracle : OracleResult ModificationResult) (request : ModifyRequest) :
    Option ModifyOutcome :=
  match get_cell_index (request.cell_name.getD "") with
  | none => notebook_level_modification fmt editOracle request
  | some target_index =>
    match pyGet request.notebook.cells (target_index : Int) with
    | none => none
    | some _ =>
      let analysis := effectiveAnalysis target_index analysisOracle
      let all_cell_indices :=
        pySortedSet (analysis.target_cell_index :: analysis.affected_cells)
      match cells_for_llm request.notebook all_cell_indices with
      | none => none
      | some ctx =>
        let result := effectiveEditResult editOracle
        match apply_cell_modifications fmt request.notebook result.modifications with
        | none => none
        | some nb =>
          some { notebook := updateRequirements nb result.requirements,
                 changes_summary := result.changes_summary,
                 modified_indices := all_cell_indices,
                 oracle_context := ctx,
                 dependency_patterns :=
                   dependency_patterns_written request target_index all_cell_indices }

/-- `NotebookModifier.modify`: dispatch on the truthiness of
`request.cell_name` (set and non-empty runs the targeted path, otherwise the
notebook-level path). -/
def modify (fmt : String → String)
    (analysisOracle : OracleResult AffectedCellsAnalysis)
    (editOracle : OracleResult ModificationResult) (request : ModifyRequest) :
    Option ModifyOutcome :=
  match request.cell_name with
  | some nm =>
    if nm = "" then notebook_level_modification fmt editOracle request
    else targeted_modification fmt analysisOracle editOracle request
  | none => notebook_level_modification fmt editOracle request

/-! ## Request parser (`app/core/request_parser.py`) -/

/-- Digit run to a natural number. -/
def digitsToNat (ds : List Char) : Nat :=
  ds.foldl (fun n c => 10 * n + (c.toNat - Char.toNat '0')) 0

/-- Model of a JSON number as accepted by Python's `json.loads` inside a flat
numeric array, restricted to the decimal forms the specification exercises:
optional minus sign, a digit run, optionally a dot and a fractional digit
run (exponent forms are out of the modelled fragment). `none` models a
`JSONDecodeError`. -/
def parseJsonNumber (raw : List Char) : Option ℚ :=
  let cs := stripChars raw
  let neg : Bool := cs.headI = '-'
  let cs := if neg then cs.tail else cs
  let intPart := cs.takeWhile Char.isDigit
  let rest := cs.dropWhile Char.isDigit
  if intPart.isEmpty then none
  else
    match rest with
    | [] =>
      let v : ℚ := (digitsToNat intPart : ℚ)
      some (if neg then -v else v)
    | c :: frac =>
      if c = '.' ∧ ¬frac.isEmpty ∧ frac.all Char.isDigit then
        let v : ℚ := (digitsToNat intPart : ℚ) +
          (digitsToNat frac : ℚ) / ((10 : ℚ) ^ frac.length)
        some (if neg then -v else v)
      else none

/-- Split a character list at commas (the separator structure of a flat JSON
array literal). -/
def splitOnComma : List Char → List (List Char)
  | [] => [[]]
  | c :: rest =>
    let r := splitOnComma rest
    if c = ',' then [] :: r
    else (c :: r.headI) :: r.tail

/-- Model of Python `json.loads` restricted to flat arrays of numbers (the
fragment `parse_domain_of_variables` consumes; the caller has already checked
the leading and trailing bracket). `none` models a raised
`JSONDecodeError`. -/
def json_loads_numbers (s : String) : Option (List ℚ) :=
  let inner := (s.data.drop 1).dropLast
  if stripChars inner = [] then some []
  else traverseOption parseJsonNumber (splitOnComma inner)

/-- `RequestParser.parse_domain_of_variables` from
`app/core/request_parser.py`: a falsy input yields `([0], [1])`; a
bracket-delimited JSON array of length two yields singleton bound lists; an
even-length array is split into first half (lower) and second half (upper);
everything else (parse failure, odd length) falls through to the
`([0], [1])` default. -/
def parse_domain_of_variables (domain_str : Option String) : List ℚ × List ℚ :=
  match domain_str with
  | none => ([0], [1])
  | some s =>
    if s = "" then ([0], [1])
    else
      let attempt : Option (List ℚ × List ℚ) :=
        if s.data.headI = '[' ∧ s.data.getLast? = some ']' then
          match json_loads_numbers s with
          | none => none
          | some values =>
            match values with
            | [a, b] => some ([a], [b])
            | _ =>
              if values.length % 2 = 0 then
                some (values.take (values.length / 2), values.drop (values.length / 2))
              else none
        else none
      match attempt with
      | some r => r
      | none => ([0], [1])

/-- Python list repetition `l * n` (negative counts give the empty list). -/
def pyListMul {α : Type} (l : List α) (n : Int) : List α :=
  (List.replicate n.toNat l).flatten

/-- The domain portion of `RequestParser.extract_structured_data`
(lines 103-111): parse the declared domain, then broadcast a singleton lower
or upper bound list to the solution size. -/
def domain_bounds (domain_str : Option String) (solution_size : Int) :
    List ℚ × List ℚ :=
  let p := parse_domain_of_variables domain_str
  let lower := if p.1.length = 1 then pyListMul p.1 solution_size else p.1
  let upper := if p.2.length = 1 then pyListMul p.2 solution_size else p.2
  (lower, upper)

/-! ## Concrete fixtures used by witnesses and counterexamples -/

/-- A canonical 12-cell notebook: cell `i` carries the catalog role name for
`i` and the source text `"source i"`. -/
def sampleNotebook : NotebookStructure :=
  { cells := (List.range 12).map
      (fun i => { cell_type := "code", cell_name := some (get_cell_name i),
                  source := "source " ++ toString i }) }

/-- A targeted modification request naming the role "mutation". -/
def sampleRequest : ModifyRequest :=
  { user_id := "u1", notebook_id := "n1", notebook := sampleNotebook,
    instruction := "Change mutation to polynomial", cell_name := some "mutation" }

/-- The same request through the alias "mutate" of the mutation role. -/
def mutateAliasRequest : ModifyRequest := { sampleRequest with cell_name := some "mutate" }

/-- The same request with no target segment. -/
def noTargetRequest : ModifyRequest := { sampleRequest with cell_name := none }

/-- The same request with an unrecognized target-segment name. -/
def notARealCellRequest : ModifyRequest :=
  { sampleRequest with cell_name := some "not_a_real_cell" }

/-- The same request on a notebook that declares an explicit requirements
manifest. -/
def customReqRequest : ModifyRequest :=
  { sampleRequest with notebook := { cells := sampleNotebook.cells,
                                     requirements := some "pandas" } }

/-- Analysis oracle output: only the target cell 5. -/
def analysisOnly5 : AffectedCellsAnalysis :=
  { target_cell_index := 5, affected_cells := [], reasoning := "no dependencies" }

/-- Analysis oracle output: target cell 5 plus the registration cell 9. -/
def analysis5and9 : AffectedCellsAnalysis :=
  { target_cell_index := 5, affected_cells := [9], reasoning := "registration needs update" }

/-- Analysis oracle output naming the non-indexable cell 15. -/
def analysisOut15 : AffectedCellsAnalysis :=
  { target_cell_index := 5, affected_cells := [15], reasoning := "bad index" }

/-- Edit oracle output touching only cell 3. -/
def editAt3 : ModificationResult :=
  { modifications := [{ cell_index := 3, new_code := "changed",
                        change_description := "edited evaluate" }],
    changes_summary := ["edited evaluate"] }

/-- Edit oracle output touching cells 5 and 9. -/
def editAt5and9 : ModificationResult :=
  { modifications := [{ cell_index := 5, new_code := "new mutation code",
                        change_description := "polynomial mutation" },
                      { cell_index := 9, new_code := "new registration code",
                        change_description := "re-register mutate" }],
    changes_summary := ["updated mutation", "updated registration"] }

/-- Edit oracle output with out-of-range and duplicate indices. -/
def editDupAndOut : ModificationResult :=
  { modifications := [{ cell_index := 12, new_code := "x", change_description := "a" },
                      { cell_index := -1, new_code := "y", change_description := "b" },
                      { cell_index := 3, new_code := "z", change_description := "c" },
                      { cell_index := 3, new_code := "w", change_description := "d" }],
    changes_summary := ["mixed"] }

/-- A default outcome used only to coerce an optional outcome to a value. -/
def emptyOutcome : ModifyOutcome :=
  { notebook := { cells := [] }, changes_summary := [], modified_indices := [],
    oracle_context := [], dependency_patterns := [] }

/-- Concrete outcome: targeted run on `sampleRequest`, edit set equal to
cells 5 and 9. -/
def out59 : ModifyOutcome :=
  (modify id (Except.ok analysis5and9) (Except.ok editAt5and9) sampleRequest).getD emptyOutcome

/-- Concrete outcome: targeted run on the alias request. -/
def outAlias : ModifyOutcome :=
  (modify id (Except.ok analysis5and9) (Except.ok editAt5and9) mutateAliasRequest).getD emptyOutcome

/-- Concrete outcome: targeted run in which both oracle calls fail. -/
def outFallback : ModifyOutcome :=
  (modify id (Except.error "analysis call failed") (Except.error "edit call failed")
    sampleRequest).getD emptyOutcome

/-- Concrete outcome: notebook-level run with duplicate and out-of-range edit
indices. -/
def outNB : ModifyOutcome :=
  (modify id (Except.ok analysis5and9) (Except.ok editDupAndOut) noTargetRequest).getD
    emptyOutcome

/-- Concrete outcome: unrecognized target name falls back to the notebook
level. -/
def outNotReal : ModifyOutcome :=
  (modify id (Except.ok analysis5and9) (Except.ok editAt5and9) notARealCellRequest).getD
    emptyOutcome

/-- Concrete outcome: run on the notebook with an explicit manifest, oracle
returning no replacement manifest. -/
def outCustomReq : ModifyOutcome :=
  (modify id (Except.ok analysis5and9) (Except.ok editAt5and9) customReqRequest).getD
    emptyOutcome

/-! ## Basic lemmas about the embedded primitives -/

theorem pyGet_nonneg_eq {α : Type} (l : List α) (i : Int) (h0 : 0 ≤ i) :
    pyGet l i = l[i.toNat]? := by
  unfold pyGet
  simp only [if_neg (by omega : ¬ i < 0), if_pos h0]

theorem pyGet_isSome {α : Type} (l : List α) (i : Int)
    (h1 : -(l.length : Int) ≤ i) (h2 : i < (l.length : Int)) :
    (pyGet l i).isSome := by
  unfold pyGet
  by_cases hi : i < 0
  · simp only [if_pos hi, if_pos (by omega : (0:Int) ≤ i + l.length)]
    have hlt : (i + (l.length : Int)).toNat < l.length := by omega
    simp [List.getElem?_eq_getElem hlt]
  · simp only [if_neg hi, if_pos (by omega : (0:Int) ≤ i)]
    have hlt : i.toNat < l.length := by omega
    simp [List.getElem?_eq_getElem hlt]

theorem get_cell_index_lt {s : String} {t : Nat} (h : get_cell_index s = some t) :
    t < 12 := by
  unfold get_cell_index CELL_MAP at h
  split at h <;> (try exact Option.noConfusion h) <;> (injection h with h2; omega)

theorem mem_insertSorted (a b : Int) (l : List Int) :
    b ∈ insertSorted a l ↔ b = a ∨ b ∈ l := by
  induction l with
  | nil => simp [insertSorted]
  | cons c t ih =>
    simp only [insertSorted]
    split
    · simp [List.mem_cons]
    · simp only [List.mem_cons, ih]
      tauto

theorem mem_pySortedSet (a : Int) (xs : List Int) :
    a ∈ pySortedSet xs ↔ a ∈ xs := by
  unfold pySortedSet
  have key : ∀ l : List Int, a ∈ l.foldr insertSorted [] ↔ a ∈ l := by
    intro l
    induction l with
    | nil => simp
    | cons b t ih => simp [List.foldr, mem_insertSorted, ih]
  rw [key, List.mem_dedup]

theorem pySortedSet_singleton (a : Int) : pySortedSet [a] = [a] := by
  simp [pySortedSet, insertSorted, List.dedup]

theorem traverseOption_isSome_iff {α β : Type} (f : α → Option β) (l : List α) :
    (traverseOption f l).isSome ↔ ∀ a ∈ l, (f a).isSome := by
  induction l with
  | nil => simp [traverseOption]
  | cons a t ih =>
    simp only [traverseOption, List.mem_cons]
    cases hfa : f a with
    | none =>
      constructor
      · intro h; simp at h
      · intro h
        exfalso
        have hcontra := h a (Or.inl rfl)
        rw [hfa] at hcontra
        simp at hcontra
    | some b =>
      constructor
      · intro h x hx
        rcases hx with rfl | hx
        · simp [hfa]
        · have hsome : (traverseOption f t).isSome := by
            cases htt : traverseOption f t
            · rw [htt] at h; simp at h
            · simp
          exact (ih.mp hsome) x hx
      · intro h
        have ht2 : (traverseOption f t).isSome :=
          ih.mpr (fun x hx => h x (Or.inr hx))
        obtain ⟨bs, hbs⟩ := Option.isSome_iff_exists.mp ht2
        simp [hbs]

theorem updateRequirements_cells (nb : NotebookStructure) (r : Option String) :
    (updateRequirements nb r).cells = nb.cells := by
  unfold updateRequirements
  cases r with
  | none => rfl
  | some s =>
    by_cases hs : s = ""
    · simp [hs]
    · simp [hs]

/-! ## Lemmas about edit application -/

theorem applyOne_length {fmt : String → String} {cells cells2 : List NotebookCell}
    {m : CellModification} (h : applyOneModification fmt cells m = some cells2) :
    cells2.length = cells.length := by
  unfold applyOneModification at h
  split at h
  · cases hpg : pyGet cells m.cell_index with
    | none => rw [hpg] at h; exact Option.noConfusion h
    | some old =>
      rw [hpg] at h
      injection h with h
      subst h
      simp
  · injection h with h
    subst h
    rfl

theorem applyOne_isSome (fmt : String → String) (cells : List NotebookCell)
    (m : CellModification) (h12 : cells.length = 12) :
    (applyOneModification fmt cells m).isSome := by
  unfold applyOneModification
  split
  · rename_i hg
    have hs : (pyGet cells m.cell_index).isSome :=
      pyGet_isSome cells m.cell_index (by omega) (by omega)
    obtain ⟨old, hold⟩ := Option.isSome_iff_exists.mp hs
    rw [hold]
    simp
  · simp

theorem applyOne_frame {fmt : String → String} {cells cells2 : List NotebookCell}
    {m : CellModification} (h : applyOneModification fmt cells m = some cells2)
    (j : Nat) (hj : m.cell_index ≠ (j : Int)) : cells2[j]? = cells[j]? := by
  unfold applyOneModification at h
  split at h
  · rename_i hg
    cases hpg : pyGet cells m.cell_index with
    | none => rw [hpg] at h; exact Option.noConfusion h
    | some old =>
      rw [hpg] at h
      injection h with h
      subst h
      have hne : m.cell_index.toNat ≠ j := by omega
      rw [List.getElem?_set_ne hne]
  · injection h with h
    subst h
    rfl

theorem applyLoop_length {fmt : String → String} (ms : List CellModification) :
    ∀ cells cells2 : List NotebookCell, applyLoop fmt cells ms = some cells2 →
    cells2.length = cells.length := by
  induction ms with
  | nil =>
    intro cells cells2 h
    injection h with h
    subst h
    rfl
  | cons m ms ih =>
    intro cells cells2 h
    unfold applyLoop at h
    cases hone : applyOneModification fmt cells m with
    | none => rw [hone] at h; exact Option.noConfusion h
    | some cellsMid =>
      rw [hone] at h
      rw [ih cellsMid cells2 h, applyOne_length hone]

theorem applyLoop_isSome (fmt : String → String) (ms : List CellModification) :
    ∀ cells : List NotebookCell, cells.length = 12 →
    (applyLoop fmt cells ms).isSome := by
  induction ms with
  | nil => intro cells _; simp [applyLoop]
  | cons m ms ih =>
    intro cells h12
    unfold applyLoop
    obtain ⟨cellsMid, hone⟩ :=
      Option.isSome_iff_exists.mp (applyOne_isSome fmt cells m h12)
    rw [hone]
    exact ih cellsMid (by rw [applyOne_length hone, h12])

theorem applyLoop_frame {fmt : String → String} (ms : List CellModification) :
    ∀ cells cells2 : List NotebookCell, applyLoop fmt cells ms = some cells2 →
    ∀ j : Nat, (∀ m ∈ ms, m.cell_index ≠ (j : Int)) →
    cells2[j]? = cells[j]? := by
  induction ms with
  | nil =>
    intro cells cells2 h j _
    injection h with h
    subst h
    rfl
  | cons m ms ih =>
    intro cells cells2 h j hj
    unfold applyLoop at h
    cases hone : applyOneModification fmt cells m with
    | none => rw [hone] at h; exact Option.noConfusion h
    | some cellsMid =>
      rw [hone] at h
      rw [ih cellsMid cells2 h j (fun m2 hm2 => hj m2 (List.mem_cons_of_mem _ hm2))]
      exact applyOne_frame hone j (hj m (List.mem_cons_self _ _))

theorem apply_cell_modifications_some_inv {fmt : String → String}
    {nb : NotebookStructure} {mods : List CellModification} {nb2 : NotebookStructure}
    (h : apply_cell_modifications fmt nb mods = some nb2) :
    ∃ cs, applyLoop fmt nb.cells mods = some cs ∧ nb2 = { cells := cs } := by
  unfold apply_cell_modifications at h
  cases hl : applyLoop fmt nb.cells mods with
  | none => rw [hl] at h; exact Option.noConfusion h
  | some cs =>
    rw [hl] at h
    simp only [Option.map_some'] at h
    injection h with h
    exact ⟨cs, rfl, h.symm⟩

/-! ## Dispatch and inversion lemmas for the modification engine -/

theorem modify_eq_targeted {fmt : String → String}
    {aO : OracleResult AffectedCellsAnalysis} {eO : OracleResult ModificationResult}
    {request : ModifyRequest} {nm : String}
    (hnm : request.cell_name = some nm) (hne : nm ≠ "") :
    modify fmt aO eO request = targeted_modification fmt aO eO request := by
  unfold modify
  rw [hnm]
  simp [hne]

theorem modify_eq_notebook_level {fmt : String → String}
    {aO : OracleResult AffectedCellsAnalysis} {eO : OracleResult ModificationResult}
    {request : ModifyRequest}
    (hnm : request.cell_name = none ∨ request.cell_name = some "") :
    modify fmt aO eO request = notebook_level_modification fmt eO request := by
  unfold modify
  rcases hnm with h | h <;> (rw [h]; try simp)

theorem targeted_unresolved {fmt : String → String}
    {aO : OracleResult AffectedCellsAnalysis} {eO : OracleResult ModificationResult}
    {request : ModifyRequest} {nm : String}
    (hnm : request.cell_name = some nm) (h : get_cell_index nm = none) :
    targeted_modification fmt aO eO request = notebook_level_modification fmt eO request := by
  unfold targeted_modification
  rw [hnm]
  simp [h]

theorem notebook_level_some_inv {fmt : String → String}
    {eO : OracleResult ModificationResult} {request : ModifyRequest} {out : ModifyOutcome}
    (hm : notebook_level_modification fmt eO request = some out) :
    ∃ cs, applyLoop fmt request.notebook.cells (effectiveEditResult eO).modifications
        = some cs ∧
      out = { notebook := updateRequirements { cells := cs } (effectiveEditResult eO).requirements,
              changes_summary := (effectiveEditResult eO).changes_summary,
              modified_indices :=
                (effectiveEditResult eO).modifications.map (fun m => m.cell_index),
              oracle_context := request.notebook.cells.enum.map
                (fun p => { index := (p.1 : Int), name := cellDisplayName p.2 (p.1 : Int),
                            code := p.2.source }),
              dependency_patterns := [] } := by
  simp only [notebook_level_modification] at hm
  split at hm
  · exact Option.noConfusion hm
  · rename_i nb hnb
    obtain ⟨cs, hcs, rfl⟩ := apply_cell_modifications_some_inv hnb
    injection hm with hm
    exact ⟨cs, hcs, hm.symm⟩

theorem targeted_some_inv {fmt : String → String}
    {aO : OracleResult AffectedCellsAnalysis} {eO : OracleResult ModificationResult}
    {request : ModifyRequest} {nm : String} {t : Nat} {out : ModifyOutcome}
    (hnm : request.cell_name = some nm) (ht : get_cell_index nm = some t)
    (hm : targeted_modification fmt aO eO request = some out) :
    ∃ ctx cs,
      cells_for_llm request.notebook
          (pySortedSet ((effectiveAnalysis t aO).target_cell_index ::
            (effectiveAnalysis t aO).affected_cells)) = some ctx ∧
      applyLoop fmt request.notebook.cells (effectiveEditResult eO).modifications
        = some cs ∧
      out = { notebook := updateRequirements { cells := cs } (effectiveEditResult eO).requirements,
              changes_summary := (effectiveEditResult eO).changes_summary,
              modified_indices := pySortedSet ((effectiveAnalysis t aO).target_cell_index ::
                (effectiveAnalysis t aO).affected_cells),
              oracle_context := ctx,
              dependency_patterns := dependency_patterns_written request t
                (pySortedSet ((effectiveAnalysis t aO).target_cell_index ::
                  (effectiveAnalysis t aO).affected_cells)) } := by
  simp only [targeted_modification, hnm, Option.getD_some, ht] at hm
  split at hm
  · exact Option.noConfusion hm
  · split at hm
    · exact Option.noConfusion hm
    · rename_i ctx hctx
      split at hm
      · exact Option.noConfusion hm
      · rename_i nb hnb
        obtain ⟨cs, hcs, rfl⟩ := apply_cell_modifications_some_inv hnb
        injection hm with hm
        exact ⟨ctx, cs, hctx, hcs, hm.symm⟩

theorem cells_for_llm_isSome {nb : NotebookStructure} {indices : List Int}
    (h12 : nb.cells.length = 12)
    (hidx : ∀ i ∈ indices, -12 ≤ i ∧ i < 12) :
    (cells_for_llm nb indices).isSome := by
  unfold cells_for_llm
  rw [traverseOption_isSome_iff]
  intro i hi
  have hrange := hidx i hi
  have hlI : ((nb.cells.length : Int)) = 12 := by rw [h12]; norm_num
  have hs : (pyGet nb.cells i).isSome :=
    pyGet_isSome nb.cells i (by omega) (by omega)
  obtain ⟨c, hc⟩ := Option.isSome_iff_exists.mp hs
  rw [hc]
  simp

theorem affected_cell_names_isSome {nb : NotebookStructure} {indices : List Int}
    {ctx : List CellCtx} (t : Nat)
    (h : cells_for_llm nb indices = some ctx) :
    (affected_cell_names nb indices t).isSome := by
  have hall : ∀ i ∈ indices, (pyGet nb.cells i).isSome := by
    have hs : (cells_for_llm nb indices).isSome := by rw [h]; simp
    unfold cells_for_llm at hs
    rw [traverseOption_isSome_iff] at hs
    intro i hi
    have := hs i hi
    cases hp : pyGet nb.cells i with
    | none => rw [hp] at this; simp at this
    | some c => simp
  unfold affected_cell_names
  rw [traverseOption_isSome_iff]
  intro i hi
  obtain ⟨c, hc⟩ := Option.isSome_iff_exists.mp (hall i (List.mem_of_mem_filter hi))
  rw [hc]
  simp

theorem notebook_level_isSome (fmt : String → String)
    (eO : OracleResult ModificationResult) (request : ModifyRequest)
    (h12 : request.notebook.cells.length = 12) :
    (notebook_level_modification fmt eO request).isSome := by
  obtain ⟨cs, hcs⟩ := Option.isSome_iff_exists.mp
    (applyLoop_isSome fmt (effectiveEditResult eO).modifications
      request.notebook.cells h12)
  simp only [notebook_level_modification]
  split
  · rename_i hnone
    unfold apply_cell_modifications at hnone
    rw [hcs] at hnone
    simp at hnone
  · simp

theorem targeted_resolved_isSome (fmt : String → String)
    (aO : OracleResult AffectedCellsAnalysis) (eO : OracleResult ModificationResult)
    (request : ModifyRequest) (nm : String) (t : Nat)
    (hnm : request.cell_name = some nm) (ht : get_cell_index nm = some t)
    (h12 : request.notebook.cells.length = 12)
    (hidx : ∀ i ∈ ((effectiveAnalysis t aO).target_cell_index ::
        (effectiveAnalysis t aO).affected_cells), -12 ≤ i ∧ i < 12) :
    (targeted_modification fmt aO eO request).isSome := by
  have ht12 : t < 12 := get_cell_index_lt ht
  have hlI : ((request.notebook.cells.length : Int)) = 12 := by rw [h12]; norm_num
  have hpg : (pyGet request.notebook.cells (t : Int)).isSome :=
    pyGet_isSome request.notebook.cells (t : Int) (by omega) (by omega)
  have hctx : (cells_for_llm request.notebook
      (pySortedSet ((effectiveAnalysis t aO).target_cell_index ::
        (effectiveAnalysis t aO).affected_cells))).isSome :=
    cells_for_llm_isSome h12 (fun i hi => hidx i ((mem_pySortedSet i _).mp hi))
  obtain ⟨cs, hcs⟩ := Option.isSome_iff_exists.mp
    (applyLoop_isSome fmt (effectiveEditResult eO).modifications
      request.notebook.cells h12)
  simp only [targeted_modification, hnm, Option.getD_some, ht]
  split
  · rename_i hnone
    rw [hnone] at hpg
    simp at hpg
  · split
    · rename_i hnone
      rw [hnone] at hctx
      simp at hctx
    · split
      · rename_i hnone
        unfold apply_cell_modifications at hnone
        rw [hcs] at hnone
        simp at hnone
      · simp

theorem modify_some_apply {fmt : String → String}
    {aO : OracleResult AffectedCellsAnalysis} {eO : OracleResult ModificationResult}
    {request : ModifyRequest} {out : ModifyOutcome}
    (hm : modify fmt aO eO request = some out) :
    ∃ cs, applyLoop fmt request.notebook.cells (effectiveEditResult eO).modifications
        = some cs ∧
      out.notebook = updateRequirements { cells := cs } (effectiveEditResult eO).requirements := by
  cases hcn : request.cell_name with
  | none =>
    rw [modify_eq_notebook_level (Or.inl hcn)] at hm
    obtain ⟨cs, hcs, rfl⟩ := notebook_level_some_inv hm
    exact ⟨cs, hcs, rfl⟩
  | some nm =>
    by_cases hne : nm = ""
    · subst hne
      rw [modify_eq_notebook_level (Or.inr hcn)] at hm
      obtain ⟨cs, hcs, rfl⟩ := notebook_level_some_inv hm
      exact ⟨cs, hcs, rfl⟩
    · rw [modify_eq_targeted hcn hne] at hm
      cases hgi : get_cell_index nm with
      | none =>
        rw [targeted_unresolved hcn hgi] at hm
        obtain ⟨cs, hcs, rfl⟩ := notebook_level_some_inv hm
        exact ⟨cs, hcs, rfl⟩
      | some t =>
        obtain ⟨ctx, cs, hctx, hcs, rfl⟩ := targeted_some_inv hcn hgi hm
        exact ⟨cs, hcs, rfl⟩

/-! ## The claims -/

/-- C3: for every artifact with exactly 12 segments, any modification call
(targeted or notebook-level, with any list of edits returned by the oracle)
that returns an artifact returns one with exactly 12 segments. -/
theorem C3_twelve_cells_preserved (fmt : String → String)
    (aO : OracleResult AffectedCellsAnalysis) (eO : OracleResult ModificationResult)
    (request : ModifyRequest) (out : ModifyOutcome)
    (h12 : request.notebook.cells.length = 12)
    (hm : modify fmt aO eO request = some out) :
    out.notebook.cells.length = 12 := by
  obtain ⟨cs, hcs, hnb⟩ := modify_some_apply hm
  rw [hnb, updateRequirements_cells]
  show cs.length = 12
  rw [applyLoop_length _ _ _ hcs]
  exact h12

/-- C3 witness: a concrete targeted run on the 12-cell sample notebook
returns a 12-cell notebook. -/
theorem C3_witness :
    sampleRequest.notebook.cells.length = 12
    ∧ modify id (Except.ok analysis5and9) (Except.ok editAt5and9) sampleRequest = some out59
    ∧ out59.notebook.cells.length = 12 :=
  ⟨by decide, by decide,
   C3_twelve_cells_preserved id (Except.ok analysis5and9) (Except.ok editAt5and9)
     sampleRequest out59 (by decide) (by decide)⟩

/-- C4: if the affected-cells oracle call fails, the analysis falls back to
the target index with no additional indices, so the returned edit set is
exactly the resolved target index. -/
theorem C4_analysis_failure_edit_set (fmt : String → String) (err : String)
    (eO : OracleResult ModificationResult) (request : ModifyRequest)
    (nm : String) (t : Nat) (out : ModifyOutcome)
    (hnm : request.cell_name = some nm) (hne : nm ≠ "")
    (ht : get_cell_index nm = some t)
    (hm : modify fmt (Except.error err) eO request = some out) :
    out.modified_indices = [(t : Int)] := by
  rw [modify_eq_targeted hnm hne] at hm
  obtain ⟨ctx, cs, hctx, hcs, rfl⟩ := targeted_some_inv hnm ht hm
  exact pySortedSet_singleton (t : Int)

/-- C4 witness: on the sample request with a failing analysis oracle the edit
set is exactly the mutation index 5. -/
theorem C4_witness :
    modify id (Except.error "analysis call failed") (Except.error "edit call failed")
        sampleRequest = some outFallback
    ∧ outFallback.modified_indices = [(5 : Int)] :=
  ⟨by decide,
   C4_analysis_failure_edit_set id "analysis call failed" (Except.error "edit call failed")
     sampleRequest "mutation" 5 outFallback (by decide) (by decide) (by decide) (by decide)⟩

/-- C9: the output artifact is built from the copied cell list alone, so when
the oracle supplies no replacement requirements manifest the returned
artifact's manifest is the model default, regardless of the input artifact's
manifest. -/
theorem C9_requirements_reset (fmt : String → String)
    (aO : OracleResult AffectedCellsAnalysis) (eO : OracleResult ModificationResult)
    (request : ModifyRequest) (out : ModifyOutcome)
    (hreq : (effectiveEditResult eO).requirements = none)
    (hm : modify fmt aO eO request = some out) :
    out.notebook.requirements = defaultRequirements := by
  obtain ⟨cs, hcs, hnb⟩ := modify_some_apply hm
  rw [hnb, hreq]
  rfl

/-- C9 witness: an input notebook declaring the manifest "pandas" comes back
with the default manifest when the oracle returns no replacement. -/
theorem C9_witness :
    customReqRequest.notebook.requirements = some "pandas"
    ∧ (effectiveEditResult (Except.ok editAt5and9)).requirements = none
    ∧ modify id (Except.ok analysis5and9) (Except.ok editAt5and9) customReqRequest
        = some outCustomReq
    ∧ outCustomReq.notebook.requirements = defaultRequirements :=
  ⟨by decide, by decide, by decide,
   C9_requirements_reset id (Except.ok analysis5and9) (Except.ok editAt5and9)
     customReqRequest outCustomReq (by decide) (by decide)⟩

/-- C10: for every notebook-level modification, the returned changed-indices
list is exactly the cell indices of the oracle's edit list, in order, with
duplicates and out-of-range indices kept verbatim. -/
theorem C10_notebook_level_indices_verbatim (fmt : String → String)
    (aO : OracleResult AffectedCellsAnalysis) (eO : OracleResult ModificationResult)
    (r : ModificationResult) (request : ModifyRequest) (out : ModifyOutcome)
    (hcn : request.cell_name = none) (he : eO = Except.ok r)
    (hm : modify fmt aO eO request = some out) :
    out.modified_indices = r.modifications.map (fun m => m.cell_index) := by
  rw [modify_eq_notebook_level (Or.inl hcn)] at hm
  obtain ⟨cs, hcs, rfl⟩ := notebook_level_some_inv hm
  subst he
  rfl

/-- C10 witness: a notebook-level run whose edit list has indices 12, -1, 3, 3
reports exactly that list (including the out-of-range index 12 whose edit was
dropped and the duplicate 3). -/
theorem C10_witness :
    modify id (Except.ok analysis5and9) (Except.ok editDupAndOut) noTargetRequest = some outNB
    ∧ outNB.modified_indices = editDupAndOut.modifications.map (fun m => m.cell_index)
    ∧ outNB.modified_indices = [(12 : Int), -1, 3, 3] :=
  ⟨by decide,
   C10_notebook_level_indices_verbatim id (Except.ok analysis5and9) (Except.ok editDupAndOut)
     editDupAndOut noTargetRequest outNB (by decide) rfl (by decide),
   by decide⟩

/-- C1 counterexample: in a targeted modification the edit oracle may return
an edit for a cell outside the edit set, and the code applies it: with edit
set `[5]` the returned artifact differs at index 3, which is not in the
returned edit-set, refuting byte-identity of non-edit-set segments as
stated. -/
theorem C1_counterexample :
    ((modify id (Except.ok analysisOnly5) (Except.ok editAt3) sampleRequest).map
        (fun out => (decide ((3 : Int) ∈ out.modified_indices),
                     out.notebook.cells[3]?.map (fun c => c.source))))
      = some (false, some "changed")
    ∧ sampleRequest.notebook.cells[3]?.map (fun c => c.source) = some "source 3" := by
  decide

/-- C1 (amended): in a targeted modification, provided every edit returned by
the edit oracle targets an index in the returned edit-set, every segment
whose index is not in the returned edit-set is equal, by value, to the
corresponding segment of the input artifact. -/
theorem C1_unaffected_cells_unchanged (fmt : String → String)
    (aO : OracleResult AffectedCellsAnalysis) (eO : OracleResult ModificationResult)
    (request : ModifyRequest) (nm : String) (t : Nat) (out : ModifyOutcome)
    (hnm : request.cell_name = some nm) (hne : nm ≠ "")
    (ht : get_cell_index nm = some t)
    (hm : modify fmt aO eO request = some out)
    (hedits : ∀ m ∈ (effectiveEditResult eO).modifications,
      m.cell_index ∈ out.modified_indices)
    (j : Nat) (hj : (j : Int) ∉ out.modified_indices) :
    out.notebook.cells[j]? = request.notebook.cells[j]? := by
  rw [modify_eq_targeted hnm hne] at hm
  obtain ⟨ctx, cs, hctx, hcs, rfl⟩ := targeted_some_inv hnm ht hm
  show (updateRequirements { cells := cs } (effectiveEditResult eO).requirements).cells[j]?
    = request.notebook.cells[j]?
  rw [updateRequirements_cells]
  exact applyLoop_frame _ _ _ hcs j (fun m hmem heq => hj (heq ▸ hedits m hmem))

/-- C1 witness: a targeted run with edit set `[5, 9]`, edits at 5 and 9 only,
leaves segment 3 untouched. -/
theorem C1_witness :
    modify id (Except.ok analysis5and9) (Except.ok editAt5and9) sampleRequest = some out59
    ∧ (∀ m ∈ (effectiveEditResult (Except.ok editAt5and9)).modifications,
        m.cell_index ∈ out59.modified_indices)
    ∧ (3 : Int) ∉ out59.modified_indices
    ∧ out59.notebook.cells[3]? = sampleRequest.notebook.cells[3]? :=
  ⟨by decide, by decide, by decide,
   C1_unaffected_cells_unchanged id (Except.ok analysis5and9) (Except.ok editAt5and9)
     sampleRequest "mutation" 5 out59 (by decide) (by decide) (by decide) (by decide)
     (by decide) 3 (by decide)⟩

/-- C2 counterexample: an affected-cells analysis naming index 15 makes the
`cells_for_llm` subscription raise an uncaught `IndexError` (modelled by
`none`): the modify operation returns no artifact. -/
theorem C2_counterexample :
    modify id (Except.ok analysisOut15) (Except.ok editAt5and9) sampleRequest = none := by
  decide

/-- C2 (amended): on a 12-cell artifact, provided every index of the analysis
the oracle returns lies in the Python-indexable range `[-12, 12)`, modify
returns some artifact for every edit result, including when either oracle
call fails (each failure path yields its defined degraded result); an
analysis index outside that range instead raises when the edit-set cells are
fetched. -/
theorem C2_returns_artifact_when_indexable (fmt : String → String)
    (aO : OracleResult AffectedCellsAnalysis) (eO : OracleResult ModificationResult)
    (request : ModifyRequest)
    (h12 : request.notebook.cells.length = 12)
    (ha : ∀ a, aO = Except.ok a →
      (-12 ≤ a.target_cell_index ∧ a.target_cell_index < 12) ∧
      ∀ i ∈ a.affected_cells, -12 ≤ i ∧ i < 12) :
    ∃ out, modify fmt aO eO request = some out := by
  cases hcn : request.cell_name with
  | none =>
    rw [modify_eq_notebook_level (Or.inl hcn)]
    exact Option.isSome_iff_exists.mp (notebook_level_isSome fmt eO request h12)
  | some nm =>
    by_cases hne : nm = ""
    · subst hne
      rw [modify_eq_notebook_level (Or.inr hcn)]
      exact Option.isSome_iff_exists.mp (notebook_level_isSome fmt eO request h12)
    · rw [modify_eq_targeted hcn hne]
      cases hgi : get_cell_index nm with
      | none =>
        rw [targeted_unresolved hcn hgi]
        exact Option.isSome_iff_exists.mp (notebook_level_isSome fmt eO request h12)
      | some t =>
        have ht12 : t < 12 := get_cell_index_lt hgi
        refine Option.isSome_iff_exists.mp
          (targeted_resolved_isSome fmt aO eO request nm t hcn hgi h12 ?_)
        intro i hi
        cases aO with
        | error e =>
          simp only [effectiveAnalysis, List.mem_cons, List.not_mem_nil, or_false] at hi
          subst hi
          omega
        | ok a =>
          simp only [effectiveAnalysis, List.mem_cons] at hi
          rcases hi with rfl | hi
          · exact ⟨(ha a rfl).1.1, (ha a rfl).1.2⟩
          · exact (ha a rfl).2 i hi

/-- C2 witness: on the sample request with an in-range analysis an artifact is
returned. -/
theorem C2_witness :
    sampleRequest.notebook.cells.length = 12
    ∧ ∃ out, modify id (Except.ok analysis5and9) (Except.ok editAt5and9) sampleRequest
        = some out :=
  ⟨by decide,
   C2_returns_artifact_when_indexable id (Except.ok analysis5and9) (Except.ok editAt5and9)
     sampleRequest (by decide)
     (by intro a h; injection h with h; subst h; exact ⟨by decide, by decide⟩)⟩

theorem applyLoop_filter {fmt : String → String} (ms : List CellModification) :
    ∀ cells : List NotebookCell,
    applyLoop fmt cells ms
      = applyLoop fmt cells
          (ms.filter (fun m => decide (0 ≤ m.cell_index ∧ m.cell_index < 12))) := by
  induction ms with
  | nil => intro cells; rfl
  | cons m ms ih =>
    intro cells
    by_cases hg : 0 ≤ m.cell_index ∧ m.cell_index < 12
    · rw [List.filter_cons_of_pos (by simpa using hg)]
      simp only [applyLoop]
      cases hone : applyOneModification fmt cells m with
      | none => rfl
      | some c2 => exact ih c2
    · rw [List.filter_cons_of_neg (by simpa using hg)]
      have hone : applyOneModification fmt cells m = some cells := by
        unfold applyOneModification
        rw [if_neg hg]
      calc applyLoop fmt cells (m :: ms)
          = applyLoop fmt cells ms := by
            simp only [applyLoop, hone]
        _ = _ := ih cells

/-- C5: at application time, every edit whose index is outside `[0, 12)` is
silently ignored (applying a list of edits equals applying only its in-range
edits), no `IndexError` is possible on a 12-cell artifact, and the returned
artifact again has exactly 12 cells. -/
theorem C5_out_of_range_edits_ignored (fmt : String → String)
    (nb : NotebookStructure) (mods : List CellModification)
    (h12 : nb.cells.length = 12) :
    apply_cell_modifications fmt nb mods
      = apply_cell_modifications fmt nb
          (mods.filter (fun m => decide (0 ≤ m.cell_index ∧ m.cell_index < 12)))
    ∧ ∃ nb2, apply_cell_modifications fmt nb mods = some nb2 ∧ nb2.cells.length = 12 := by
  obtain ⟨cs, hcs⟩ := Option.isSome_iff_exists.mp
    (applyLoop_isSome fmt mods nb.cells h12)
  refine ⟨?_, { cells := cs }, ?_, ?_⟩
  · unfold apply_cell_modifications
    rw [applyLoop_filter]
  · unfold apply_cell_modifications
    rw [hcs]
    rfl
  · show cs.length = 12
    rw [applyLoop_length _ _ _ hcs]
    exact h12

/-- C5 witness: edits at indices 12 and -1 are dropped, the in-range edits at
3 are applied, and the result still has 12 cells. -/
theorem C5_witness :
    sampleNotebook.cells.length = 12
    ∧ apply_cell_modifications id sampleNotebook editDupAndOut.modifications
        = apply_cell_modifications id sampleNotebook
            (editDupAndOut.modifications.filter
              (fun m => decide (0 ≤ m.cell_index ∧ m.cell_index < 12)))
    ∧ ∃ nb2, apply_cell_modifications id sampleNotebook editDupAndOut.modifications
        = some nb2 ∧ nb2.cells.length = 12 :=
  ⟨by decide,
   (C5_out_of_range_edits_ignored id sampleNotebook editDupAndOut.modifications (by decide)).1,
   (C5_out_of_range_edits_ignored id sampleNotebook editDupAndOut.modifications (by decide)).2⟩

/-- C6: a set but unrecognized target-segment name does not fail: the call
behaves exactly as the same request with no target segment (notebook-level
path), and the context sent to the edit oracle covers every segment of the
artifact (all 12 under the 12-cell invariant). -/
theorem C6_unrecognized_name_fallback (fmt : String → String)
    (aO : OracleResult AffectedCellsAnalysis) (eO : OracleResult ModificationResult)
    (request : ModifyRequest) (nm : String)
    (hnm : request.cell_name = some nm)
    (hunk : get_cell_index nm = none) :
    modify fmt aO eO request = modify fmt aO eO { request with cell_name := none }
    ∧ ∀ out, modify fmt aO eO request = some out →
        out.oracle_context.length = request.notebook.cells.length := by
  have hnb : notebook_level_modification fmt eO { request with cell_name := none }
      = notebook_level_modification fmt eO request := rfl
  have hmain : modify fmt aO eO request = notebook_level_modification fmt eO request := by
    by_cases hne : nm = ""
    · subst hne
      exact modify_eq_notebook_level (Or.inr hnm)
    · rw [modify_eq_targeted hnm hne]
      exact targeted_unresolved hnm hunk
  constructor
  · rw [hmain, modify_eq_notebook_level (Or.inl rfl)]
    exact hnb.symm
  · intro out hm
    rw [hmain] at hm
    obtain ⟨cs, hcs, rfl⟩ := notebook_level_some_inv hm
    simp

/-- C6 witness: the request naming "not_a_real_cell" routes to the
notebook-level path of the target-free request and sends all 12 cells as
context. -/
theorem C6_witness :
    modify id (Except.ok analysis5and9) (Except.ok editAt5and9) notARealCellRequest
      = modify id (Except.ok analysis5and9) (Except.ok editAt5and9)
          { notARealCellRequest with cell_name := none }
    ∧ outNotReal.oracle_context.length = notARealCellRequest.notebook.cells.length :=
  ⟨(C6_unrecognized_name_fallback id (Except.ok analysis5and9) (Except.ok editAt5and9)
      notARealCellRequest "not_a_real_cell" (by decide) (by decide)).1,
   (C6_unrecognized_name_fallback id (Except.ok analysis5and9) (Except.ok editAt5and9)
      notARealCellRequest "not_a_real_cell" (by decide) (by decide)).2
     outNotReal (by decide)⟩

/-- C7: the code comment above the even-length branch of
`parse_domain_of_variables` says "assume alternating lower upper bounds", and
the specification says "interleaved lower/upper list", but the implementation
splits the list into first half (lower) and second half (upper): on
`"[1, 2, 3, 4]"` it returns `([1, 2], [3, 4])`, not the interleaved
`([1, 3], [2, 4])`. The pair, broadcast and malformed-input clauses of the
claim do hold, as the remaining conjuncts show. -/
theorem C7_even_length_split_not_interleaved :
    parse_domain_of_variables (some "[1, 2, 3, 4]") = ([1, 2], [3, 4])
    ∧ (([1, 2], [3, 4]) : List ℚ × List ℚ) ≠ ([1, 3], [2, 4])
    ∧ domain_bounds (some "[2, 5]") 3 = ([2, 2, 2], [5, 5, 5])
    ∧ domain_bounds (some "not json") 2 = ([0, 0], [1, 1])
    ∧ domain_bounds none 2 = ([0, 0], [1, 1])
    ∧ parse_domain_of_variables (some "[1, 2, 3]") = ([0], [1]) := by
  refine ⟨by decide, by decide, by decide, by decide, by decide, by decide⟩

/-- C8 counterexample: a targeted modification through the alias "mutate"
(resolving to the mutation role at index 5, whose segment role name is
"mutation") with edit set `[5, 9]` writes exactly one dependency-pattern
fact, but its source is the request's alias "mutate", not the target
segment's role "mutation": the source clause of the claim fails. -/
theorem C8_counterexample :
    ((modify id (Except.ok analysis5and9) (Except.ok editAt5and9) mutateAliasRequest).map
        (fun out => out.dependency_patterns.map (fun p => p.source_cell)))
      = some ["mutate"]
    ∧ sampleNotebook.cells[5]?.map (fun c => c.cell_name) = some (some "mutation")
    ∧ "mutate" ≠ "mutation" := by
  decide

/-- C8 (amended): for every targeted modification whose edit-set has more than
one member, exactly one dependency-pattern fact is written, with source = the
request's target-segment name as given (possibly an alias of the role),
affected = the stored names (or positional placeholders) of the edit-set
members other than the resolved target index, and reason = "Modification: "
followed by the instruction text; an edit-set of size one writes no
dependency-pattern fact. -/
theorem C8_dependency_pattern_write (fmt : String → String)
    (aO : OracleResult AffectedCellsAnalysis) (eO : OracleResult ModificationResult)
    (request : ModifyRequest) (nm : String) (t : Nat) (out : ModifyOutcome)
    (hnm : request.cell_name = some nm) (hne : nm ≠ "")
    (ht : get_cell_index nm = some t)
    (hm : modify fmt aO eO request = some out) :
    (1 < out.modified_indices.length →
      ∃ affected, affected_cell_names request.notebook out.modified_indices t = some affected
        ∧ out.dependency_patterns =
            [{ source_cell := nm, affected_cells := affected,
               reason := "Modification: " ++ request.instruction }])
    ∧ (out.modified_indices.length ≤ 1 → out.dependency_patterns = []) := by
  rw [modify_eq_targeted hnm hne] at hm
  obtain ⟨ctx, cs, hctx, hcs, rfl⟩ := targeted_some_inv hnm ht hm
  constructor
  · intro hlen
    obtain ⟨aff, haff⟩ := Option.isSome_iff_exists.mp (affected_cell_names_isSome t hctx)
    refine ⟨aff, haff, ?_⟩
    show dependency_patterns_written request t _ = _
    unfold dependency_patterns_written
    rw [if_pos hlen]
    simp only [haff, hnm, Option.getD_some]
  · intro hlen
    show dependency_patterns_written request t _ = []
    unfold dependency_patterns_written
    rw [if_neg (Nat.not_lt.mpr hlen)]

/-- C8 witness: the alias request with edit set `[5, 9]` writes exactly one
fact with affected = the stored name of cell 9. -/
theorem C8_witness :
    modify id (Except.ok analysis5and9) (Except.ok editAt5and9) mutateAliasRequest
      = some outAlias
    ∧ 1 < outAlias.modified_indices.length
    ∧ ∃ affected,
        affected_cell_names mutateAliasRequest.notebook outAlias.modified_indices 5
          = some affected
        ∧ outAlias.dependency_patterns =
            [{ source_cell := "mutate", affected_cells := affected,
               reason := "Modification: " ++ mutateAliasRequest.instruction }] :=
  ⟨by decide, by decide,
   (C8_dependency_pattern_write id (Except.ok analysis5and9) (Except.ok editAt5and9)
      mutateAliasRequest "mutate" 5 outAlias (by decide) (by decide) (by decide)
      (by decide)).1 (by decide)⟩

end Evo
